import Mathlib

/-!
Shallow embedding of the supply-daddy checkpoint core (Python, `src/server/`).

Conventions used throughout:
* Python `float` values (temperatures, weights, hours, POSIX-style timestamps)
  are modelled as `ℚ`; ISO-8601 datetime strings are modelled as `ℚ` numbers of
  seconds, so Python's `timedelta(hours=h)` becomes `3600 * h`.
* Optional / possibly-missing dict fields are `Option _`; an absent or
  unparseable datetime string is `none` (the code skips such fields via
  `try/except` and truthiness checks).
* External collaborators with no deterministic core of their own (the SHA-256
  primitive from `hashlib`, the ledger transaction reference produced by the
  chain) are passed in as function parameters; the document-store and the
  on-chain checkpoint list are explicit state.
* The anomaly-type and severity enumerations of the data model are modelled as
  inductive types; the code serialises them as strings (upper-case from the
  risk engine, lower-case from the tamper branch), a casing detail with no
  observable role in the data model.
-/

set_option maxRecDepth 100000

namespace SupplyDaddy

/-- Association-list lookup (Python dict access; keys are unique in every
dict modelled here, and the first match is returned). -/
def lookupAL {α : Type} : List (String × α) → String → Option α
  | [], _ => none
  | p :: rest, k => if p.1 = k then some p.2 else lookupAL rest k

/-- Association-list lookup with a default, standing in for Python
`d.get(k, default)`. -/
def lookupD {α : Type} (l : List (String × α)) (k : String) (d : α) : α :=
  match lookupAL l k with
  | some v => v
  | none => d

/-- Association-list update: replace the value stored at key `k`
(Python `d[k] = v` on a dict whose key set is fixed). -/
def setAL {α : Type} (l : List (String × α)) (k : String) (v : α) : List (String × α) :=
  l.map fun p => if p.1 = k then (k, v) else p

theorem lookupAL_setAL_ne {α : Type} (l : List (String × α)) (k k' : String) (v : α)
    (h : k ≠ k') : lookupAL (setAL l k' v) k = lookupAL l k := by
  induction l with
  | nil => rfl
  | cons p rest ih =>
    by_cases hp : p.1 = k'
    · have h1 : ¬ (k' = k) := fun e => h e.symm
      have h2 : ¬ (p.1 = k) := by rw [hp]; exact h1
      show lookupAL ((if p.1 = k' then (k', v) else p) :: setAL rest k' v) k = _
      rw [if_pos hp]
      show (if k' = k then some v else lookupAL (setAL rest k' v) k) = _
      rw [if_neg h1, ih]
      show lookupAL rest k = if p.1 = k then some p.2 else lookupAL rest k
      rw [if_neg h2]
    · show lookupAL ((if p.1 = k' then (k', v) else p) :: setAL rest k' v) k = _
      rw [if_neg hp]
      show (if p.1 = k then some p.2 else lookupAL (setAL rest k' v) k) = _
      rw [ih]
      rfl

theorem lookupAL_setAL_self {α : Type} (l : List (String × α)) (k : String) (v : α)
    (h : (lookupAL l k).isSome) : lookupAL (setAL l k v) k = some v := by
  induction l with
  | nil => simp [lookupAL] at h
  | cons p rest ih =>
    by_cases hp : p.1 = k
    · show lookupAL ((if p.1 = k then (k, v) else p) :: setAL rest k v) k = some v
      rw [if_pos hp]
      show (if k = k then some v else lookupAL (setAL rest k v) k) = some v
      rw [if_pos rfl]
    · have h' : (lookupAL rest k).isSome := by
        simpa [lookupAL, if_neg hp] using h
      show lookupAL ((if p.1 = k then (k, v) else p) :: setAL rest k v) k = some v
      rw [if_neg hp]
      show (if p.1 = k then some p.2 else lookupAL (setAL rest k v) k) = some v
      rw [if_neg hp]
      exact ih h'

/-! ## Risk policies (`config/risk_policies.py`)

Python policies are dicts whose keys are present only when relevant; each
threshold is therefore an `Option`.  `hazmat_required`/`moisture_max_pct`
appear in the table but are never read by the risk engine. -/

structure RiskPolicy where
  temperature_range : Option (ℚ × ℚ) := none
  humidity_max_pct : Option ℚ := none
  moisture_max_pct : Option ℚ := none
  hazmat_required : Bool := false
  max_delay_hours : Option ℚ := none
  weight_tolerance_pct : Option ℚ := none
deriving DecidableEq, Repr

def RISK_POLICIES : List (String × RiskPolicy) :=
  [ ("pharmaceutical",
      { temperature_range := some (2, 8), max_delay_hours := some 6,
        weight_tolerance_pct := some 2, humidity_max_pct := some 60 }),
    ("food_grain",
      { temperature_range := some (10, 35), moisture_max_pct := some 14,
        max_delay_hours := some 24, weight_tolerance_pct := some 5 }),
    ("lithium_battery",
      { temperature_range := some (-10, 30), hazmat_required := true,
        max_delay_hours := some 12, weight_tolerance_pct := some 1 }),
    ("electronics",
      { temperature_range := some (0, 40), humidity_max_pct := some 70,
        max_delay_hours := some 48, weight_tolerance_pct := some 3 }),
    ("default",
      { temperature_range := some (-20, 50), max_delay_hours := some 72,
        weight_tolerance_pct := some 10 }) ]

/-- Python `RISK_POLICIES.get(category, RISK_POLICIES["default"])`. -/
def get_policy (product_category : String) : RiskPolicy :=
  match lookupAL RISK_POLICIES product_category with
  | some p => p
  | none => { temperature_range := some (-20, 50), max_delay_hours := some 72,
              weight_tolerance_pct := some 10 }

/-! ## Anomaly records (`models/telemetry_model.py`) -/

inductive AnomalyType
  | TEMPERATURE_BREACH | HUMIDITY_BREACH | WEIGHT_DEVIATION | DELAY | DOCUMENT_TAMPERED
deriving DecidableEq, Repr

inductive Severity
  | LOW | MEDIUM | HIGH | CRITICAL
deriving DecidableEq, Repr

/-- Value of an entry of the free-form `details` dict of an anomaly. -/
inductive DVal
  | str (s : String)
  | ostr (s : Option String)
  | num (q : ℚ)
deriving DecidableEq, Repr

/-- AnomalyRecord of the data model.  The best-effort `genai_assessment`
enrichment attached by the external interpretation collaborator carries no
invariant and is not modelled. -/
structure AnomalyRecord where
  shipment_id : String
  anomaly_type : AnomalyType
  severity : Severity := .MEDIUM
  details : List (String × DVal) := []
  location_code : String := ""
  resolved : Bool := false
  created_at : ℚ
deriving DecidableEq, Repr

/-! ## Risk engine (`services/risk_engine.py`)

`evaluate_checkpoint` is pure except for the `created_at = datetime.utcnow()`
stamp, which is passed in here as the `now` parameter. -/

/-- Embeds `_temp_severity`. -/
def temp_severity (observed min_t max_t : ℚ) : Severity :=
  let range_size := max_t - min_t
  if range_size = 0 then .CRITICAL
  else
    let deviation := if observed < min_t then min_t - observed else observed - max_t
    let ratio := deviation / range_size
    if ratio > 1 then .CRITICAL
    else if ratio > (1 : ℚ) / 2 then .HIGH
    else .MEDIUM

/-- Python float truthiness of the optional expected-weight baseline:
`None` and `0.0` are falsy. -/
def weightBaselineTruthy : Option ℚ → Bool
  | none => false
  | some w => w != 0

/-- Severity of a DELAY anomaly: the inline conditional
`"HIGH" if delay_hours > policy["max_delay_hours"] * 2 else "MEDIUM"`. -/
def delaySeverity (max_delay delay_hours : ℚ) : Severity :=
  if delay_hours > max_delay * 2 then .HIGH else .MEDIUM

/-- Temperature check of `evaluate_checkpoint`. -/
def tempCheck (now : ℚ) (shipment_id product_category location_code : String)
    (temperature : Option ℚ) : List AnomalyRecord :=
  match temperature, (get_policy product_category).temperature_range with
  | some t, some (min_temp, max_temp) =>
    if t < min_temp ∨ t > max_temp then
      [{ shipment_id := shipment_id, anomaly_type := .TEMPERATURE_BREACH,
         severity := temp_severity t min_temp max_temp,
         details := [("observed_temperature", .num t),
                     ("allowed_range", .str (toString min_temp ++ "-" ++ toString max_temp)),
                     ("product_category", .str product_category)],
         location_code := location_code, created_at := now }]
    else []
  | _, _ => []

/-- Humidity check of `evaluate_checkpoint`. -/
def humCheck (now : ℚ) (shipment_id product_category location_code : String)
    (humidity : Option ℚ) : List AnomalyRecord :=
  match humidity, (get_policy product_category).humidity_max_pct with
  | some h, some hmax =>
    if h > hmax then
      [{ shipment_id := shipment_id, anomaly_type := .HUMIDITY_BREACH,
         severity := .MEDIUM,
         details := [("observed_humidity", .num h), ("max_allowed", .num hmax)],
         location_code := location_code, created_at := now }]
    else []
  | _, _ => []

/-- Weight-deviation check of `evaluate_checkpoint`: guarded by Python
truthiness of `expected_weight_kg` (skipped when `None` or `0.0`). -/
def weightCheck (now : ℚ) (shipment_id product_category location_code : String)
    (weight_kg : ℚ) (expected_weight_kg : Option ℚ) : List AnomalyRecord :=
  if weightBaselineTruthy expected_weight_kg then
    match expected_weight_kg, (get_policy product_category).weight_tolerance_pct with
    | some expected, some tolerance =>
      let deviation_pct := |weight_kg - expected| / expected * 100
      if deviation_pct > tolerance then
        [{ shipment_id := shipment_id, anomaly_type := .WEIGHT_DEVIATION,
           severity := if deviation_pct > tolerance * 2 then .HIGH else .MEDIUM,
           details := [("observed_weight_kg", .num weight_kg),
                       ("expected_weight_kg", .num expected),
                       ("deviation_pct", .num deviation_pct),
                       ("tolerance_pct", .num tolerance)],
           location_code := location_code, created_at := now }]
      else []
    | _, _ => []
  else []

/-- Delay check of `evaluate_checkpoint`. -/
def delayCheck (now : ℚ) (shipment_id product_category location_code : String)
    (delay_hours : ℚ) : List AnomalyRecord :=
  match (get_policy product_category).max_delay_hours with
  | some max_delay =>
    if delay_hours > 0 then
      if delay_hours > max_delay then
        [{ shipment_id := shipment_id, anomaly_type := .DELAY,
           severity := delaySeverity max_delay delay_hours,
           details := [("delay_hours", .num delay_hours),
                       ("max_allowed_hours", .num max_delay)],
           location_code := location_code, created_at := now }]
      else []
    else []
  | none => []

/-- Embeds `evaluate_checkpoint` (risk_engine.py lines 13–97): the four
independent policy checks, emitted in source order. -/
def evaluate_checkpoint (now : ℚ) (shipment_id product_category location_code : String)
    (temperature humidity : Option ℚ) (weight_kg : ℚ)
    (expected_weight_kg : Option ℚ) (delay_hours : ℚ) : List AnomalyRecord :=
  tempCheck now shipment_id product_category location_code temperature ++
  humCheck now shipment_id product_category location_code humidity ++
  weightCheck now shipment_id product_category location_code weight_kg expected_weight_kg ++
  delayCheck now shipment_id product_category location_code delay_hours

/-! ## Route nodes and the ETA ripple engine (`services/eta_engine.py`) -/

/-- Per-shipment RouteNode.  Datetime strings are `ℚ` seconds; an absent,
empty or unparseable field is `none` (the code treats those alike through
truthiness and `try/except`). -/
structure RouteNode where
  location_code : String
  name : String
  expected_arrival : Option ℚ
  eta : Option ℚ
  actual_arrival : Option ℚ
deriving DecidableEq, Repr

/-- Shift of one node by `timedelta(hours=delay_hours)`: both timestamp
fields move by `3600 * delay_hours` seconds when present. -/
def shiftNode (delay_hours : ℚ) (node : RouteNode) : RouteNode :=
  { node with
    eta := node.eta.map (· + 3600 * delay_hours),
    expected_arrival := node.expected_arrival.map (· + 3600 * delay_hours) }

/-- Loop body of `propagate_delay`: `i` is the index of the head of the
remaining list; indices in `range(node_index + 1, len(route))` are shifted. -/
def propagate_aux (delay_hours : ℚ) (node_index : ℕ) : ℕ → List RouteNode → List RouteNode
  | _, [] => []
  | i, node :: rest =>
    (if node_index + 1 ≤ i then shiftNode delay_hours node else node)
      :: propagate_aux delay_hours node_index (i + 1) rest

/-- Embeds `propagate_delay` (eta_engine.py lines 11–47). -/
def propagate_delay (route : List RouteNode) (node_index : ℕ) (delay_hours : ℚ) :
    List RouteNode :=
  propagate_aux delay_hours node_index 0 route

theorem propagate_aux_length (d : ℚ) (ni : ℕ) :
    ∀ (l : List RouteNode) (i : ℕ), (propagate_aux d ni i l).length = l.length := by
  intro l
  induction l with
  | nil => intro i; rfl
  | cons node rest ih =>
    intro i
    simp [propagate_aux, ih]

theorem propagate_aux_get (d : ℚ) (ni : ℕ) :
    ∀ (l : List RouteNode) (i j : ℕ) (h : j < (propagate_aux d ni i l).length)
      (h' : j < l.length),
      (propagate_aux d ni i l).get ⟨j, h⟩ =
        if ni + 1 ≤ i + j then shiftNode d (l.get ⟨j, h'⟩) else l.get ⟨j, h'⟩ := by
  intro l
  induction l with
  | nil => intro i j h h'; simp at h'
  | cons node rest ih =>
    intro i j h h'
    cases j with
    | zero => simp [propagate_aux]
    | succ j' =>
      have hr : j' < (propagate_aux d ni (i + 1) rest).length := by
        simpa [propagate_aux_length] using Nat.lt_of_succ_lt_succ h'
      have hr' : j' < rest.length := Nat.lt_of_succ_lt_succ h'
      have := ih (i + 1) j' hr hr'
      simp only [propagate_aux, List.get_cons_succ]
      rw [show i + (j' + 1) = (i + 1) + j' by omega] at *
      exact this

/-! ## Route graph (`services/route_graph.py`)

The static transit network, Dijkstra's algorithm over it, and route
materialisation.  The `heapq` priority queue is modelled as a bag from which
`heappop` removes a minimal `(dist, node)` tuple under Python's
lexicographic tuple order; the while-loop gets explicit fuel (the loop
terminates because every push strictly decreases a `dist` entry, and all
concrete runs below finish long before the fuel is exhausted). -/

structure NodeInfo where
  name : String
  x : ℤ
  y : ℤ
deriving DecidableEq, Repr, Inhabited

def NODES : List (String × NodeInfo) :=
  [ ("DEL", ⟨"Delhi Hub", 350, 80⟩),
    ("JAI", ⟨"Jaipur Hub", 230, 160⟩),
    ("LKO", ⟨"Lucknow Hub", 490, 120⟩),
    ("KNP", ⟨"Kanpur Hub", 440, 200⟩),
    ("AMD", ⟨"Ahmedabad Hub", 140, 310⟩),
    ("BPL", ⟨"Bhopal Hub", 340, 310⟩),
    ("KOL", ⟨"Kolkata Hub", 620, 340⟩),
    ("MUM", ⟨"Mumbai Hub", 110, 440⟩),
    ("PNQ", ⟨"Pune Hub", 170, 510⟩),
    ("NAG", ⟨"Nagpur Hub", 390, 400⟩),
    ("HYD", ⟨"Hyderabad Hub", 340, 530⟩),
    ("BBI", ⟨"Bhubaneswar Hub", 560, 470⟩),
    ("VTZ", ⟨"Visakhapatnam Hub", 480, 540⟩),
    ("BLR", ⟨"Bangalore Hub", 290, 660⟩),
    ("CHN", ⟨"Chennai Hub", 410, 670⟩) ]

def EDGES : List (String × String × ℕ) :=
  [ ("DEL", "JAI", 5), ("DEL", "LKO", 9), ("DEL", "KNP", 8),
    ("JAI", "AMD", 10), ("JAI", "BPL", 11),
    ("LKO", "KNP", 3), ("LKO", "KOL", 15),
    ("KNP", "BPL", 9),
    ("AMD", "MUM", 8),
    ("MUM", "PNQ", 3),
    ("PNQ", "BLR", 14),
    ("BPL", "NAG", 6),
    ("NAG", "HYD", 8), ("NAG", "KOL", 13),
    ("HYD", "BLR", 10), ("HYD", "VTZ", 9),
    ("BLR", "CHN", 6),
    ("CHN", "VTZ", 12),
    ("VTZ", "BBI", 7),
    ("BBI", "KOL", 8),
    ("MUM", "HYD", 13),
    ("PNQ", "HYD", 10) ]

/-- Embeds `_build_adjacency`: start from an empty neighbour list per node and
append both directions of every edge, in edge order. -/
def _build_adjacency : List (String × List (String × ℕ)) :=
  EDGES.foldl
    (fun adj e =>
      let adj1 := setAL adj e.1 (lookupD adj e.1 [] ++ [(e.2.1, e.2.2)])
      setAL adj1 e.2.1 (lookupD adj1 e.2.1 [] ++ [(e.1, e.2.2)]))
    (NODES.map fun p => (p.1, []))

/-- Python `d > dist[u]` where `dist[u]` may be `float("inf")` (`none`). -/
def gtDist (d : ℕ) : Option ℕ → Bool
  | none => false
  | some q => d > q

/-- Python `new_dist < dist[v]` with a finite left side. -/
def ltDist (d : ℕ) : Option ℕ → Bool
  | none => true
  | some q => d < q

/-- Lexicographic comparison of strings by code point, Python `str <`. -/
def strLtB : List Char → List Char → Bool
  | [], [] => false
  | [], _ :: _ => true
  | _ :: _, [] => false
  | a :: as, b :: bs =>
    if a.toNat < b.toNat then true
    else if b.toNat < a.toNat then false
    else strLtB as bs

/-- Python tuple order `(d, u) <= (e, v)` on `(float, str)` pairs. -/
def pqLe (a b : ℕ × String) : Bool :=
  if a.1 < b.1 then true
  else if a.1 = b.1 then (strLtB a.2.data b.2.data || a.2 == b.2)
  else false

/-- Model of `heapq.heappop`: remove a minimal tuple from the queue. -/
def popMin : List (ℕ × String) → Option ((ℕ × String) × List (ℕ × String))
  | [] => none
  | x :: xs =>
    match popMin xs with
    | none => some (x, [])
    | some (m, rest) => if pqLe x m then some (x, xs) else some (m, x :: rest)

/-- One relaxation of the inner `for v, w in adj[u]` loop body. -/
def relaxStep (u : String)
    (st : List (String × Option ℕ) × List (String × Option String) × List (ℕ × String))
    (vw : String × ℕ) :
    List (String × Option ℕ) × List (String × Option String) × List (ℕ × String) :=
  let dist := st.1
  let prev := st.2.1
  let pq := st.2.2
  match lookupD dist u none with
  | none => st
  | some du =>
    let new_dist := du + vw.2
    if ltDist new_dist (lookupD dist vw.1 none) then
      (setAL dist vw.1 (some new_dist), setAL prev vw.1 (some u), pq ++ [(new_dist, vw.1)])
    else st

/-- The Dijkstra `while pq:` loop of `find_optimal_route`. -/
def dijkstraLoop (adj : List (String × List (String × ℕ))) (destination : String) :
    ℕ → List (String × Option ℕ) → List (String × Option String) → List (ℕ × String) →
    List (String × Option ℕ) × List (String × Option String)
  | 0, dist, prev, _ => (dist, prev)
  | fuel + 1, dist, prev, pq =>
    match popMin pq with
    | none => (dist, prev)
    | some ((d, u), pq1) =>
      if gtDist d (lookupD dist u none) then
        dijkstraLoop adj destination fuel dist prev pq1
      else if u = destination then (dist, prev)
      else
        let st := (lookupD adj u []).foldl (relaxStep u) (dist, prev, pq1)
        dijkstraLoop adj destination fuel st.1 st.2.1 st.2.2

/-- Path reconstruction: the `while node is not None` walk over `prev`,
already in origin-to-destination order (the code appends then reverses). -/
def reconstructPath (prev : List (String × Option String)) : ℕ → String → List String
  | 0, node => [node]
  | fuel + 1, node =>
    match lookupD prev node none with
    | none => [node]
    | some p => reconstructPath prev fuel p ++ [node]

/-- The shortest-path part of `find_optimal_route` for `origin ≠ destination`:
Dijkstra, the `float("inf")` reachability test, and path reconstruction. -/
def shortestCodes (origin destination : String) : Option (List String) :=
  let adj := _build_adjacency
  let dist0 := setAL (NODES.map fun p => (p.1, (none : Option ℕ))) origin (some 0)
  let prev0 := NODES.map fun p => (p.1, (none : Option String))
  let dp := dijkstraLoop adj destination 10000 dist0 prev0 [((0 : ℕ), origin)]
  match lookupD dp.1 destination none with
  | none => none
  | some _ => some (reconstructPath dp.2 20 destination)

/-- Edge-weight search of the route-materialisation loop: first entry of
`EDGES` joining `a` and `b` in either orientation. -/
def edgeWeightBetween (a b : String) : Option ℕ :=
  (EDGES.find? fun e => (e.1 == a && e.2.1 == b) || (e.2.1 == a && e.1 == b)).map
    fun e => e.2.2

/-- RouteNode materialised at cumulative travel time `cumulative_hours`
(`eta = now + timedelta(hours=cumulative_hours)`). -/
def mkRouteNode (now : ℚ) (code : String) (cumulative_hours : ℕ) : RouteNode :=
  { location_code := code,
    name := (lookupD NODES code default).name,
    expected_arrival := some (now + 3600 * (cumulative_hours : ℚ)),
    eta := some (now + 3600 * (cumulative_hours : ℚ)),
    actual_arrival := none }

/-- The `for i, code in enumerate(path)` route-building loop: add the edge
weight between the previous and current code to the running total (silently
adding nothing if no edge matches) and emit the node. -/
def buildRoute (now : ℚ) : ℕ → Option String → List String → List RouteNode
  | _, _, [] => []
  | cumulative, prevCode, code :: rest =>
    let cumulative1 :=
      match prevCode with
      | none => cumulative
      | some p =>
        match edgeWeightBetween p code with
        | some w => cumulative + w
        | none => cumulative
    mkRouteNode now code cumulative1 :: buildRoute now cumulative1 (some code) rest

/-- Embeds `find_optimal_route` (route_graph.py lines 64–132).  The two
`datetime.now(timezone.utc)` clock reads of one call are modelled by the
single parameter `now`. -/
def find_optimal_route (now : ℚ) (origin destination : String) :
    Option (List RouteNode) :=
  if (lookupAL NODES origin).isNone || (lookupAL NODES destination).isNone then none
  else if origin = destination then
    some [{ location_code := origin,
            name := (lookupD NODES origin default).name,
            expected_arrival := some now, eta := some now, actual_arrival := none }]
  else
    match shortestCodes origin destination with
    | none => none
    | some path => some (buildRoute now 0 none path)

/-! ## Paths in the static graph, and a shortest-distance certificate

`walkCostW` is the total edge weight of a node sequence, `⊤` when two
consecutive codes are not joined by an edge.  To settle minimality of the
Dijkstra result we compute a distance table per source (by Bellman–Ford
relaxation over the same edge set) and check, by evaluation: the table
satisfies the triangle inequality on every edge and is `≤ 0` at the source —
which makes it a lower bound on every walk cost — and the Dijkstra result of
every ordered pair is a walk whose cost meets the table. -/

def nodeCodes : List String := NODES.map (·.1)

/-- Both orientations of the undirected edge set. -/
def symEdges : List (String × String × ℕ) :=
  EDGES ++ EDGES.map fun e => (e.2.1, e.1, e.2.2)

/-- Distance with `none` as `float("inf")`, injected into `WithTop ℕ`. -/
def toW : Option ℕ → WithTop ℕ
  | none => ⊤
  | some q => (q : WithTop ℕ)

/-- Total edge weight of a node sequence; `⊤` if some step is not an edge
and for the empty sequence. -/
def walkCostW : List String → WithTop ℕ
  | [] => ⊤
  | [_] => 0
  | u :: v :: rest => toW (edgeWeightBetween u v) + walkCostW (v :: rest)

/-- A path through the static graph from `a` to `b`. -/
def isWalk (a b : String) (p : List String) : Prop :=
  p.head? = some a ∧ p.getLast? = some b ∧ walkCostW p ≠ ⊤

/-- Certified shortest-distance tables, one row per source node.  These are
proof artefacts, not part of the source translation: `distCert` below checks
by evaluation that each row lower-bounds every walk cost from its source and
that the Dijkstra result meets it. -/
def distTables : List (String × List (String × Option ℕ)) :=
  [ ("DEL", [("DEL", some 0), ("JAI", some 5), ("LKO", some 9), ("KNP", some 8),
      ("AMD", some 15), ("BPL", some 16), ("KOL", some 24), ("MUM", some 23),
      ("PNQ", some 26), ("NAG", some 22), ("HYD", some 30), ("BBI", some 32),
      ("VTZ", some 39), ("BLR", some 40), ("CHN", some 46)]),
    ("JAI", [("DEL", some 5), ("JAI", some 0), ("LKO", some 14), ("KNP", some 13),
      ("AMD", some 10), ("BPL", some 11), ("KOL", some 29), ("MUM", some 18),
      ("PNQ", some 21), ("NAG", some 17), ("HYD", some 25), ("BBI", some 37),
      ("VTZ", some 34), ("BLR", some 35), ("CHN", some 41)]),
    ("LKO", [("DEL", some 9), ("JAI", some 14), ("LKO", some 0), ("KNP", some 3),
      ("AMD", some 24), ("BPL", some 12), ("KOL", some 15), ("MUM", some 32),
      ("PNQ", some 35), ("NAG", some 18), ("HYD", some 26), ("BBI", some 23),
      ("VTZ", some 30), ("BLR", some 36), ("CHN", some 42)]),
    ("KNP", [("DEL", some 8), ("JAI", some 13), ("LKO", some 3), ("KNP", some 0),
      ("AMD", some 23), ("BPL", some 9), ("KOL", some 18), ("MUM", some 31),
      ("PNQ", some 33), ("NAG", some 15), ("HYD", some 23), ("BBI", some 26),
      ("VTZ", some 32), ("BLR", some 33), ("CHN", some 39)]),
    ("AMD", [("DEL", some 15), ("JAI", some 10), ("LKO", some 24), ("KNP", some 23),
      ("AMD", some 0), ("BPL", some 21), ("KOL", some 39), ("MUM", some 8),
      ("PNQ", some 11), ("NAG", some 27), ("HYD", some 21), ("BBI", some 37),
      ("VTZ", some 30), ("BLR", some 25), ("CHN", some 31)]),
    ("BPL", [("DEL", some 16), ("JAI", some 11), ("LKO", some 12), ("KNP", some 9),
      ("AMD", some 21), ("BPL", some 0), ("KOL", some 19), ("MUM", some 27),
      ("PNQ", some 24), ("NAG", some 6), ("HYD", some 14), ("BBI", some 27),
      ("VTZ", some 23), ("BLR", some 24), ("CHN", some 30)]),
    ("KOL", [("DEL", some 24), ("JAI", some 29), ("LKO", some 15), ("KNP", some 18),
      ("AMD", some 39), ("BPL", some 19), ("KOL", some 0), ("MUM", some 34),
      ("PNQ", some 31), ("NAG", some 13), ("HYD", some 21), ("BBI", some 8),
      ("VTZ", some 15), ("BLR", some 31), ("CHN", some 27)]),
    ("MUM", [("DEL", some 23), ("JAI", some 18), ("LKO", some 32), ("KNP", some 31),
      ("AMD", some 8), ("BPL", some 27), ("KOL", some 34), ("MUM", some 0),
      ("PNQ", some 3), ("NAG", some 21), ("HYD", some 13), ("BBI", some 29),
      ("VTZ", some 22), ("BLR", some 17), ("CHN", some 23)]),
    ("PNQ", [("DEL", some 26), ("JAI", some 21), ("LKO", some 35), ("KNP", some 33),
      ("AMD", some 11), ("BPL", some 24), ("KOL", some 31), ("MUM", some 3),
      ("PNQ", some 0), ("NAG", some 18), ("HYD", some 10), ("BBI", some 26),
      ("VTZ", some 19), ("BLR", some 14), ("CHN", some 20)]),
    ("NAG", [("DEL", some 22), ("JAI", some 17), ("LKO", some 18), ("KNP", some 15),
      ("AMD", some 27), ("BPL", some 6), ("KOL", some 13), ("MUM", some 21),
      ("PNQ", some 18), ("NAG", some 0), ("HYD", some 8), ("BBI", some 21),
      ("VTZ", some 17), ("BLR", some 18), ("CHN", some 24)]),
    ("HYD", [("DEL", some 30), ("JAI", some 25), ("LKO", some 26), ("KNP", some 23),
      ("AMD", some 21), ("BPL", some 14), ("KOL", some 21), ("MUM", some 13),
      ("PNQ", some 10), ("NAG", some 8), ("HYD", some 0), ("BBI", some 16),
      ("VTZ", some 9), ("BLR", some 10), ("CHN", some 16)]),
    ("BBI", [("DEL", some 32), ("JAI", some 37), ("LKO", some 23), ("KNP", some 26),
      ("AMD", some 37), ("BPL", some 27), ("KOL", some 8), ("MUM", some 29),
      ("PNQ", some 26), ("NAG", some 21), ("HYD", some 16), ("BBI", some 0),
      ("VTZ", some 7), ("BLR", some 25), ("CHN", some 19)]),
    ("VTZ", [("DEL", some 39), ("JAI", some 34), ("LKO", some 30), ("KNP", some 32),
      ("AMD", some 30), ("BPL", some 23), ("KOL", some 15), ("MUM", some 22),
      ("PNQ", some 19), ("NAG", some 17), ("HYD", some 9), ("BBI", some 7),
      ("VTZ", some 0), ("BLR", some 18), ("CHN", some 12)]),
    ("BLR", [("DEL", some 40), ("JAI", some 35), ("LKO", some 36), ("KNP", some 33),
      ("AMD", some 25), ("BPL", some 24), ("KOL", some 31), ("MUM", some 17),
      ("PNQ", some 14), ("NAG", some 18), ("HYD", some 10), ("BBI", some 25),
      ("VTZ", some 18), ("BLR", some 0), ("CHN", some 6)]),
    ("CHN", [("DEL", some 46), ("JAI", some 41), ("LKO", some 42), ("KNP", some 39),
      ("AMD", some 31), ("BPL", some 30), ("KOL", some 27), ("MUM", some 23),
      ("PNQ", some 20), ("NAG", some 24), ("HYD", some 16), ("BBI", some 19),
      ("VTZ", some 12), ("BLR", some 6), ("CHN", some 0)]) ]

def bfD (src dst : String) : Option ℕ := lookupD (lookupD distTables src []) dst none

/-- Lower-bound certificate for the table of source `s`: value `≤ 0` at `s`
and the triangle inequality on every directed edge. -/
def bfCertTbl (tbl : List (String × Option ℕ)) (s : String) : Bool :=
  decide (toW (lookupD tbl s none) ≤ 0) &&
  symEdges.all fun e =>
    decide (toW (lookupD tbl e.2.1 none) ≤ toW (lookupD tbl e.1 none) + (e.2.2 : WithTop ℕ))

def bfCertSrc (s : String) : Bool := bfCertTbl (lookupD distTables s []) s

/-- Per-pair agreement certificate for source `a`: for every other node `b`,
either both the Dijkstra search and the table report unreachable, or the
Dijkstra path runs from `a` to `b` with cost exactly the table distance. -/
def pairCert (a b : String) : Bool :=
  (a == b) ||
  (match shortestCodes a b, bfD a b with
   | some path, some d =>
     (path.head? == some a) && (path.getLast? == some b) &&
       decide (walkCostW path = ((d : ℕ) : WithTop ℕ))
   | none, none => true
   | _, _ => false)

def pairCertSrc (a : String) : Bool := nodeCodes.all (pairCert a)

theorem bfCert_all : nodeCodes.all bfCertSrc = true := by decide

theorem pairCert_src_DEL : pairCertSrc "DEL" = true := by decide

theorem pairCert_src_JAI : pairCertSrc "JAI" = true := by decide

theorem pairCert_src_LKO : pairCertSrc "LKO" = true := by decide

theorem pairCert_src_KNP : pairCertSrc "KNP" = true := by decide

theorem pairCert_src_AMD : pairCertSrc "AMD" = true := by decide

theorem pairCert_src_BPL : pairCertSrc "BPL" = true := by decide

theorem pairCert_src_KOL : pairCertSrc "KOL" = true := by decide

theorem pairCert_src_MUM : pairCertSrc "MUM" = true := by decide

theorem pairCert_src_PNQ : pairCertSrc "PNQ" = true := by decide

theorem pairCert_src_NAG : pairCertSrc "NAG" = true := by decide

theorem pairCert_src_HYD : pairCertSrc "HYD" = true := by decide

theorem pairCert_src_BBI : pairCertSrc "BBI" = true := by decide

theorem pairCert_src_VTZ : pairCertSrc "VTZ" = true := by decide

theorem pairCert_src_BLR : pairCertSrc "BLR" = true := by decide

theorem pairCert_src_CHN : pairCertSrc "CHN" = true := by decide

theorem pairCert_of_mem (a : String) (ha : a ∈ nodeCodes) : pairCertSrc a = true := by
  simp only [nodeCodes, NODES, List.map_cons, List.map_nil, List.mem_cons,
    List.not_mem_nil, or_false] at ha
  rcases ha with rfl | rfl | rfl | rfl | rfl | rfl | rfl | rfl | rfl | rfl | rfl | rfl
    | rfl | rfl | rfl
  exacts [pairCert_src_DEL, pairCert_src_JAI, pairCert_src_LKO, pairCert_src_KNP,
    pairCert_src_AMD, pairCert_src_BPL, pairCert_src_KOL, pairCert_src_MUM,
    pairCert_src_PNQ, pairCert_src_NAG, pairCert_src_HYD, pairCert_src_BBI,
    pairCert_src_VTZ, pairCert_src_BLR, pairCert_src_CHN]

theorem bfCertSrc_of_mem (a : String) (ha : a ∈ nodeCodes) : bfCertSrc a = true :=
  (List.all_eq_true.mp bfCert_all) a ha

theorem bf_src_le (a : String) (ha : a ∈ nodeCodes) : toW (bfD a a) ≤ 0 := by
  have h := bfCertSrc_of_mem a ha
  unfold bfCertSrc bfCertTbl at h
  exact of_decide_eq_true (Bool.and_elim_left h)

theorem bf_edge (a : String) (ha : a ∈ nodeCodes) (e : String × String × ℕ)
    (he : e ∈ symEdges) :
    toW (bfD a e.2.1) ≤ toW (bfD a e.1) + (e.2.2 : WithTop ℕ) := by
  have h := bfCertSrc_of_mem a ha
  unfold bfCertSrc bfCertTbl at h
  exact of_decide_eq_true ((List.all_eq_true.mp (Bool.and_elim_right h)) e he)

theorem edgeWeightBetween_mem (u v : String) (w : ℕ)
    (h : edgeWeightBetween u v = some w) : (u, v, w) ∈ symEdges := by
  unfold edgeWeightBetween at h
  cases hf : EDGES.find? fun e => (e.1 == u && e.2.1 == v) || (e.2.1 == u && e.1 == v) with
  | none => rw [hf] at h; simp at h
  | some e =>
    rw [hf] at h
    obtain ⟨ea, eb, ew⟩ := e
    simp only [Option.map] at h
    injection h with h
    have hmem := List.mem_of_find?_eq_some hf
    have hpred := List.find?_some hf
    simp only [Bool.or_eq_true, Bool.and_eq_true, beq_iff_eq] at hpred
    subst h
    rcases hpred with ⟨h1, h2⟩ | ⟨h1, h2⟩
    · subst h1; subst h2
      exact List.mem_append_left _ hmem
    · subst h1; subst h2
      refine List.mem_append_right _ ?_
      exact List.mem_map.mpr ⟨(ea, eb, ew), hmem, rfl⟩

theorem bf_le_walk (a : String) (ha : a ∈ nodeCodes) :
    ∀ (p : List String) (u b : String), p.head? = some u → p.getLast? = some b →
      toW (bfD a b) ≤ toW (bfD a u) + walkCostW p := by
  intro p
  induction p with
  | nil => intro u b hh; simp at hh
  | cons x xs ih =>
    intro u b hh hl
    have hx : x = u := by simpa using hh
    subst hx
    cases xs with
    | nil =>
      have hb : x = b := by simpa using hl
      subst hb
      simp [walkCostW]
    | cons y ys =>
      have hl' : (y :: ys).getLast? = some b := by
        simpa [List.getLast?_cons_cons] using hl
      have ihy := ih y b rfl hl'
      have hstep : toW (bfD a y) ≤ toW (bfD a x) + toW (edgeWeightBetween x y) := by
        cases hew : edgeWeightBetween x y with
        | none => simp [toW]
        | some w =>
          have := bf_edge a ha (x, y, w) (edgeWeightBetween_mem x y w hew)
          simpa [toW] using this
      calc toW (bfD a b) ≤ toW (bfD a y) + walkCostW (y :: ys) := ihy
        _ ≤ (toW (bfD a x) + toW (edgeWeightBetween x y)) + walkCostW (y :: ys) :=
            add_le_add_right hstep _
        _ = toW (bfD a x) + walkCostW (x :: y :: ys) := by
            rw [add_assoc]; rfl

theorem bf_lb (a b : String) (ha : a ∈ nodeCodes) (p : List String)
    (hw : isWalk a b p) : toW (bfD a b) ≤ walkCostW p := by
  obtain ⟨hh, hl, _⟩ := hw
  calc toW (bfD a b) ≤ toW (bfD a a) + walkCostW p := bf_le_walk a ha p a b hh hl
    _ ≤ 0 + walkCostW p := add_le_add_right (bf_src_le a ha) _
    _ = walkCostW p := zero_add _

theorem pairCert_spec (a b : String) (h : pairCert a b = true) (hab : a ≠ b)
    (d : ℕ) (hd : bfD a b = some d) :
    ∃ path, shortestCodes a b = some path ∧ path.head? = some a ∧
      path.getLast? = some b ∧ walkCostW path = (d : WithTop ℕ) := by
  unfold pairCert at h
  rw [beq_eq_false_iff_ne.mpr hab] at h
  simp only [Bool.false_or] at h
  cases hs : shortestCodes a b with
  | none => rw [hs, hd] at h; simp at h
  | some path =>
    rw [hs, hd] at h
    simp only [Bool.and_eq_true, beq_iff_eq, decide_eq_true_eq] at h
    exact ⟨path, rfl, h.1.1, h.1.2, h.2⟩

theorem lookupAL_isSome_of_mem_keys {α : Type} (l : List (String × α)) (x : String)
    (hx : x ∈ l.map Prod.fst) : (lookupAL l x).isSome := by
  induction l with
  | nil => simp at hx
  | cons p rest ih =>
    simp only [List.map_cons, List.mem_cons] at hx
    by_cases hp : p.1 = x
    · simp [lookupAL, hp]
    · rcases hx with hx | hx
      · exact absurd hx.symm hp
      · simp only [lookupAL, if_neg hp]
        exact ih hx

theorem fo_eq_buildRoute (now : ℚ) (a b : String)
    (ha : a ∈ nodeCodes) (hb : b ∈ nodeCodes) (hab : a ≠ b)
    (path : List String) (hs : shortestCodes a b = some path) :
    find_optimal_route now a b = some (buildRoute now 0 none path) := by
  obtain ⟨va, hva⟩ := Option.isSome_iff_exists.mp (lookupAL_isSome_of_mem_keys NODES a ha)
  obtain ⟨vb, hvb⟩ := Option.isSome_iff_exists.mp (lookupAL_isSome_of_mem_keys NODES b hb)
  unfold find_optimal_route
  rw [hva, hvb, hs]
  simp [hab]

theorem buildRoute_codes (now : ℚ) :
    ∀ (path : List String) (c : ℕ) (pc : Option String),
      (buildRoute now c pc path).map RouteNode.location_code = path := by
  intro path
  induction path with
  | nil => intro c pc; rfl
  | cons code rest ih =>
    intro c pc
    simp only [buildRoute, List.map_cons, mkRouteNode, ih]

/-- C5: for every pair of distinct nodes of the transit graph joined by some
path, `find_optimal_route` returns a route that starts at the origin, ends at
the destination, follows edges of the graph, and whose total edge weight is
minimal over all paths between the two nodes. -/
theorem C5_find_optimal_route_minimal (now : ℚ) (a b : String)
    (ha : a ∈ nodeCodes) (hb : b ∈ nodeCodes) (hab : a ≠ b)
    (hconn : ∃ p, isWalk a b p) :
    ∃ (r : List RouteNode) (d : ℕ), find_optimal_route now a b = some r ∧
      (r.map RouteNode.location_code).head? = some a ∧
      (r.map RouteNode.location_code).getLast? = some b ∧
      walkCostW (r.map RouteNode.location_code) = (d : WithTop ℕ) ∧
      ∀ p, isWalk a b p → (d : WithTop ℕ) ≤ walkCostW p := by
  obtain ⟨p0, hp0⟩ := hconn
  have hlb0 := bf_lb a b ha p0 hp0
  have hne : bfD a b ≠ none := by
    intro h
    rw [h] at hlb0
    exact hp0.2.2 (top_le_iff.mp hlb0)
  obtain ⟨d, hd⟩ := Option.ne_none_iff_exists.mp hne
  have hpc : pairCert a b = true :=
    (List.all_eq_true.mp (pairCert_of_mem a ha)) b hb
  obtain ⟨path, hs, hh, hl, hcost⟩ := pairCert_spec a b hpc hab d hd.symm
  refine ⟨buildRoute now 0 none path, d,
    fo_eq_buildRoute now a b ha hb hab path hs, ?_, ?_, ?_, ?_⟩
  · rw [buildRoute_codes]; exact hh
  · rw [buildRoute_codes]; exact hl
  · rw [buildRoute_codes]; exact hcost
  · intro p hp
    have := bf_lb a b ha p hp
    rw [hd.symm] at this
    simpa [toW] using this

/-- C8: for every node of the graph, a route request from that node to itself
yields a single-node route whose `expected_arrival` and `eta` both equal the
current time and whose `actual_arrival` is null. -/
theorem C8_same_origin_single_node (now : ℚ) (x : String) (info : NodeInfo)
    (hx : lookupAL NODES x = some info) :
    find_optimal_route now x x =
      some [{ location_code := x, name := info.name,
              expected_arrival := some now, eta := some now,
              actual_arrival := none }] := by
  unfold find_optimal_route
  rw [hx]
  simp [lookupD, hx]

/-- Closed instance of C8 at a concrete node. -/
theorem C8_same_origin_single_node_witness :
    lookupAL NODES "DEL" = some ⟨"Delhi Hub", 350, 80⟩ ∧
    find_optimal_route 0 "DEL" "DEL" =
      some [{ location_code := "DEL", name := "Delhi Hub",
              expected_arrival := some 0, eta := some 0,
              actual_arrival := none }] :=
  ⟨by decide, C8_same_origin_single_node 0 "DEL" ⟨"Delhi Hub", 350, 80⟩ (by decide)⟩

/-- C6: delay propagation leaves every node at index at most `i` untouched
and shifts `eta` and `expected_arrival` of every later node by exactly
`delay_hours` hours (3600 seconds per hour) when present, touching nothing
else. -/
theorem C6_propagate_delay_frame (route : List RouteNode) (i : ℕ) (d : ℚ)
    (hd : 0 ≤ d) :
    (propagate_delay route i d).length = route.length ∧
    ∀ (j : ℕ) (hj : j < route.length) (hj2 : j < (propagate_delay route i d).length),
      (j ≤ i → (propagate_delay route i d).get ⟨j, hj2⟩ = route.get ⟨j, hj⟩) ∧
      (i < j →
        ((propagate_delay route i d).get ⟨j, hj2⟩).eta
            = (route.get ⟨j, hj⟩).eta.map (· + 3600 * d) ∧
        ((propagate_delay route i d).get ⟨j, hj2⟩).expected_arrival
            = (route.get ⟨j, hj⟩).expected_arrival.map (· + 3600 * d) ∧
        ((propagate_delay route i d).get ⟨j, hj2⟩).location_code
            = (route.get ⟨j, hj⟩).location_code ∧
        ((propagate_delay route i d).get ⟨j, hj2⟩).name = (route.get ⟨j, hj⟩).name ∧
        ((propagate_delay route i d).get ⟨j, hj2⟩).actual_arrival
            = (route.get ⟨j, hj⟩).actual_arrival) := by
  refine ⟨propagate_aux_length d i route 0, ?_⟩
  intro j hj hj2
  have hget : (propagate_delay route i d).get ⟨j, hj2⟩ =
      if i + 1 ≤ j then shiftNode d (route.get ⟨j, hj⟩) else route.get ⟨j, hj⟩ := by
    show (propagate_aux d i 0 route).get ⟨j, hj2⟩ = _
    rw [propagate_aux_get d i route 0 j hj2 hj]
    norm_num
  constructor
  · intro hle
    rw [hget, if_neg (by omega)]
  · intro hlt
    rw [hget, if_pos (by omega)]
    simp [shiftNode]

/-- Closed instance of C6 at a concrete route. -/
theorem C6_propagate_delay_frame_witness :
    (0 : ℚ) ≤ 1 ∧
    (propagate_delay
        [⟨"DEL", "Delhi Hub", some 0, some 0, some 0⟩,
         ⟨"JAI", "Jaipur Hub", some 18000, some 18000, none⟩] 0 1).length =
      ([⟨"DEL", "Delhi Hub", some 0, some 0, some 0⟩,
        ⟨"JAI", "Jaipur Hub", some 18000, some 18000, none⟩] :
          List RouteNode).length :=
  ⟨by norm_num,
    (C6_propagate_delay_frame
      [⟨"DEL", "Delhi Hub", some 0, some 0, some 0⟩,
       ⟨"JAI", "Jaipur Hub", some 18000, some 18000, none⟩] 0 1 (by norm_num)).1⟩

theorem lookupAL_mem_values {α : Type} (l : List (String × α)) (k : String) (v : α)
    (h : lookupAL l k = some v) : v ∈ l.map Prod.snd := by
  induction l with
  | nil => simp [lookupAL] at h
  | cons p rest ih =>
    by_cases hp : p.1 = k
    · simp only [lookupAL, if_pos hp, Option.some.injEq] at h
      simp [← h]
    · simp only [lookupAL, if_neg hp] at h
      simp [ih h]

/-- Any looked-up policy's `max_delay_hours` threshold is positive. -/
theorem get_policy_max_delay_pos (cat : String) (m : ℚ)
    (hm : (get_policy cat).max_delay_hours = some m) : 0 < m := by
  have hmem : get_policy cat ∈ RISK_POLICIES.map Prod.snd := by
    unfold get_policy
    cases h : lookupAL RISK_POLICIES cat with
    | none => simp [RISK_POLICIES]
    | some p => simpa using lookupAL_mem_values RISK_POLICIES cat p h
  simp only [RISK_POLICIES, List.map_cons, List.map_nil, List.mem_cons,
    List.not_mem_nil, or_false] at hmem
  rcases hmem with h | h | h | h | h <;> rw [h] at hm <;>
    injection hm with hm <;> rw [← hm] <;> norm_num

theorem mem_tempCheck_type (now : ℚ) (sid cat loc : String) (t : Option ℚ)
    (a : AnomalyRecord) (h : a ∈ tempCheck now sid cat loc t) :
    a.anomaly_type = .TEMPERATURE_BREACH := by
  unfold tempCheck at h
  split at h
  · split at h
    · simp at h; rw [h]
    · simp at h
  · simp at h

theorem mem_humCheck_type (now : ℚ) (sid cat loc : String) (hum : Option ℚ)
    (a : AnomalyRecord) (h : a ∈ humCheck now sid cat loc hum) :
    a.anomaly_type = .HUMIDITY_BREACH := by
  unfold humCheck at h
  split at h
  · split at h
    · simp at h; rw [h]
    · simp at h
  · simp at h

theorem mem_weightCheck_type (now : ℚ) (sid cat loc : String) (w : ℚ)
    (ew : Option ℚ) (a : AnomalyRecord)
    (h : a ∈ weightCheck now sid cat loc w ew) :
    a.anomaly_type = .WEIGHT_DEVIATION := by
  unfold weightCheck at h
  split at h
  · split at h
    · dsimp only at h
      split at h
      · simp at h; rw [h]
      · simp at h
    · simp at h
  · simp at h

/-- The delay branch in closed form once the policy defines a threshold. -/
theorem delayCheck_eq (now : ℚ) (sid cat loc : String) (dh m : ℚ)
    (hm : (get_policy cat).max_delay_hours = some m) :
    delayCheck now sid cat loc dh =
      if dh > 0 ∧ dh > m then
        [{ shipment_id := sid, anomaly_type := .DELAY,
           severity := delaySeverity m dh,
           details := [("delay_hours", .num dh), ("max_allowed_hours", .num m)],
           location_code := loc, created_at := now }]
      else [] := by
  unfold delayCheck
  rw [hm]
  dsimp only
  by_cases h0 : dh > 0
  · by_cases h1 : dh > m
    · rw [if_pos h0, if_pos h1, if_pos ⟨h0, h1⟩]
    · rw [if_pos h0, if_neg h1, if_neg fun hc => h1 hc.2]
  · rw [if_neg h0, if_neg fun hc => h0 hc.1]

/-- C7: whenever the product category's policy defines `max_delay_hours`, a
DELAY anomaly is emitted exactly when `delay_hours` exceeds it; its severity
is HIGH when `delay_hours` exceeds twice the threshold and MEDIUM otherwise,
so `delay_hours = 3` against a threshold of 2 rates MEDIUM. -/
theorem C7_delay_threshold (now : ℚ) (sid cat loc : String)
    (temp hum : Option ℚ) (w : ℚ) (ew : Option ℚ) (dh m : ℚ)
    (hm : (get_policy cat).max_delay_hours = some m) :
    ((∃ a ∈ evaluate_checkpoint now sid cat loc temp hum w ew dh,
        a.anomaly_type = .DELAY) ↔ dh > m) ∧
    (∀ a ∈ evaluate_checkpoint now sid cat loc temp hum w ew dh,
        a.anomaly_type = .DELAY →
          a.severity = (if dh > m * 2 then .HIGH else .MEDIUM)) ∧
    delaySeverity 2 3 = .MEDIUM := by
  have hpos := get_policy_max_delay_pos cat m hm
  have hde := delayCheck_eq now sid cat loc dh m hm
  refine ⟨?_, ?_, by norm_num [delaySeverity]⟩
  · constructor
    · rintro ⟨a, ha, hat⟩
      unfold evaluate_checkpoint at ha
      simp only [List.mem_append] at ha
      rcases ha with ((ha | ha) | ha) | ha
      · rw [mem_tempCheck_type now sid cat loc temp a ha] at hat; cases hat
      · rw [mem_humCheck_type now sid cat loc hum a ha] at hat; cases hat
      · rw [mem_weightCheck_type now sid cat loc w ew a ha] at hat; cases hat
      · rw [hde] at ha
        by_cases hc : dh > 0 ∧ dh > m
        · exact hc.2
        · rw [if_neg hc] at ha; simp at ha
    · intro hgt
      have h0 : dh > 0 := lt_trans hpos hgt
      have hne : delayCheck now sid cat loc dh ≠ [] := by
        rw [hde, if_pos ⟨h0, hgt⟩]
        simp
      obtain ⟨a, ha⟩ := List.exists_mem_of_ne_nil _ hne
      have hat : a.anomaly_type = .DELAY := by
        rw [hde, if_pos ⟨h0, hgt⟩] at ha
        simp only [List.mem_singleton] at ha
        rw [ha]
      exact ⟨a, List.mem_append_right _ ha, hat⟩
  · intro a ha hat
    unfold evaluate_checkpoint at ha
    simp only [List.mem_append] at ha
    rcases ha with ((ha | ha) | ha) | ha
    · rw [mem_tempCheck_type now sid cat loc temp a ha] at hat; cases hat
    · rw [mem_humCheck_type now sid cat loc hum a ha] at hat; cases hat
    · rw [mem_weightCheck_type now sid cat loc w ew a ha] at hat; cases hat
    · rw [hde] at ha
      by_cases hc : dh > 0 ∧ dh > m
      · rw [if_pos hc] at ha
        simp only [List.mem_singleton] at ha
        rw [ha]
        simp [delaySeverity, mul_comm]
      · rw [if_neg hc] at ha; simp at ha

/-- Closed instance of C7 for the pharmaceutical policy (threshold 6 h). -/
theorem C7_delay_threshold_witness :
    (get_policy "pharmaceutical").max_delay_hours = some 6 ∧
    ((∃ a ∈ evaluate_checkpoint 0 "S1" "pharmaceutical" "DEL" none none 100 none 7,
        a.anomaly_type = .DELAY) ↔ (7 : ℚ) > 6) :=
  ⟨by decide,
    (C7_delay_threshold 0 "S1" "pharmaceutical" "DEL" none none 100 none 7 6
      (by decide)).1⟩

/-- C10: an expected-weight baseline of exactly `0` is treated like an absent
baseline — the weight-deviation branch is skipped before any division, and no
WEIGHT_DEVIATION anomaly can be produced. -/
theorem C10_zero_baseline_skipped (now : ℚ) (sid cat loc : String)
    (temp hum : Option ℚ) (w dh : ℚ) :
    evaluate_checkpoint now sid cat loc temp hum w (some 0) dh =
      evaluate_checkpoint now sid cat loc temp hum w none dh ∧
    ∀ a ∈ evaluate_checkpoint now sid cat loc temp hum w (some 0) dh,
      a.anomaly_type ≠ .WEIGHT_DEVIATION := by
  have hw : weightCheck now sid cat loc w (some 0) = [] := by
    unfold weightCheck weightBaselineTruthy
    simp
  have hw2 : weightCheck now sid cat loc w none = [] := by
    unfold weightCheck weightBaselineTruthy
    simp
  constructor
  · unfold evaluate_checkpoint
    rw [hw, hw2]
  · intro a ha hat
    unfold evaluate_checkpoint at ha
    simp only [List.mem_append] at ha
    rcases ha with ((ha | ha) | ha) | ha
    · rw [mem_tempCheck_type now sid cat loc temp a ha] at hat; cases hat
    · rw [mem_humCheck_type now sid cat loc hum a ha] at hat; cases hat
    · rw [hw] at ha; simp at ha
    · have := mem_tempCheck_type
      unfold delayCheck at ha
      split at ha
      · split at ha
        · split at ha
          · simp at ha; rw [ha] at hat; cases hat
          · simp at ha
        · simp at ha
      · simp at ha


/-! ## Document hashes (`routes/shipment.py`) -/

/-- Delimiter-joined encoding of the three document texts, the f-string
`PO:{po_text}|INV:{invoice_text}|BOL:{bol_text}` of `compute_doc_hash`. -/
def docCombined (po_text invoice_text bol_text : String) : String :=
  "PO:" ++ po_text ++ "|INV:" ++ invoice_text ++ "|BOL:" ++ bol_text

/-- Embeds `compute_doc_hash` (shipment.py lines 18–21): SHA-256 over the
UTF-8 encoding of the combined string.  The `hashlib` primitive is an
external collaborator passed in as `sha256`; its digests are always 32
bytes, so the `[:32]` paddings and truncations downstream are identities,
and a digest is modelled by its hex string. -/
def compute_doc_hash (sha256 : String → String)
    (po_text invoice_text bol_text : String) : String :=
  sha256 (docCombined po_text invoice_text bol_text)

/-! ## Blockchain service (`services/blockchain_service.py`)

Only the connected-ledger branches are embedded: the stub branch (web3 or
key absent) and the exception branch return fixed fallback payloads and
belong to the external collaborator, not to the deterministic core. -/

/-- LedgerEntry of the data model: one on-chain checkpoint of the
`ShipmentAnchor` contract. -/
structure LedgerEntry where
  location_code : String
  weight_kg : ℤ
  document_hash : String
deriving DecidableEq, Repr

structure VerifyResult where
  verified : Bool
  on_chain_hash : Option String
  expected_hash : String
  status : String
deriving DecidableEq, Repr

/-- Embeds `verify_checkpoint_hash` (blockchain_service.py lines 153–203):
`chain` is the shipment's on-chain checkpoint list; an empty list is
auto-verified as `first_checkpoint`, otherwise only the latest entry is
compared. -/
def verify_checkpoint_hash (chain : List LedgerEntry) (expected_hash : String) :
    VerifyResult :=
  match chain.getLast? with
  | none =>
    { verified := true, on_chain_hash := none, expected_hash := expected_hash,
      status := "first_checkpoint" }
  | some latest =>
    let on_chain_hash := latest.document_hash
    let verified := on_chain_hash == expected_hash
    { verified := verified, on_chain_hash := some on_chain_hash,
      expected_hash := expected_hash,
      status := if verified then "verified" else "hash_mismatch" }

/-- Receipt of `append_checkpoint`; the block number is chain metadata with
no role in the core and is not modelled. -/
structure TxResult where
  tx_hash : Option String
  status : String
deriving DecidableEq, Repr

/-- Embeds the connected branch of `append_checkpoint` (blockchain_service.py
lines 72–126): the entry is appended to the shipment's on-chain list and a
confirmed receipt is returned; `txref` is the externally produced
transaction reference. -/
def append_checkpoint (txref : String → String → String)
    (chain : List LedgerEntry) (shipment_id location_code : String)
    (weight_kg : ℤ) (document_hash : String) : List LedgerEntry × TxResult :=
  (chain ++ [{ location_code := location_code, weight_kg := weight_kg,
               document_hash := document_hash }],
   { tx_hash := some (txref shipment_id location_code), status := "confirmed" })

/-! ## Checkpoint processor (`routes/checkpoint.py`)

State of the document-store collections and of the per-shipment on-chain
checkpoint lists, threaded explicitly.  Anomaly enrichment through the
interpretation collaborator is best-effort metadata attached after commit
and is not modelled; anomalies are persisted in submission order
(risk-engine anomalies first, then the tamper anomaly). -/

/-- Risk profile of a shipment; only `product_category` is read by the
processor. -/
structure RiskProfile where
  product_category : Option String
deriving DecidableEq, Repr

structure Shipment where
  shipment_id : String
  origin : String
  destination : String
  route : List RouteNode
  risk_profile : Option RiskProfile
  current_status : String
  blockchain_tx_hashes : List String
  po_text : String
  invoice_text : String
  bol_text : String
  doc_hash : String
deriving DecidableEq, Repr

structure Telemetry where
  location_code : String
  temperature : Option ℚ
  humidity : Option ℚ
  weight_kg : ℚ
  timestamp : ℚ
  scanned_by : String
deriving DecidableEq, Repr

/-- CheckpointInput of `models/telemetry_model.py`. -/
structure CheckpointInput where
  shipment_id : String
  location_code : String
  temperature : Option ℚ := none
  humidity : Option ℚ := none
  weight_kg : ℚ
  timestamp : Option ℚ := none
deriving DecidableEq, Repr

/-- Persistent state touched by a checkpoint submission: the shipment
documents, per-shipment telemetry lists, the anomaly collection, and the
per-shipment on-chain checkpoint lists. -/
structure ProcState where
  shipments : List (String × Shipment)
  telemetry : List (String × List Telemetry)
  anomalies : List AnomalyRecord
  chain : List (String × List LedgerEntry)
deriving DecidableEq, Repr

/-- The structural rejections of §7, one per `raise HTTPException` site of
steps 1–3 of `register_checkpoint`. -/
inductive HttpError
  | notFound
  | invalidState
  | notOnRoute
  | outOfOrder
  | duplicateCheckpoint
deriving DecidableEq, Repr

instance : Inhabited RouteNode := ⟨⟨"", "", none, none, none⟩⟩

/-- Steps 1–3 of `register_checkpoint` (checkpoint.py lines 34–72): fetch,
delivered check, route membership, in-order enforcement, duplicate
rejection.  On success the fetched shipment and the node index are
returned; Python truthiness of `actual_arrival` is `Option.isSome`. -/
def validate_checkpoint (s : ProcState) (checkpoint : CheckpointInput) :
    Except HttpError (Shipment × ℕ) :=
  match lookupAL s.shipments checkpoint.shipment_id with
  | none => .error .notFound
  | some shipment =>
    if shipment.current_status = "delivered" then .error .invalidState
    else
      match shipment.route.findIdx?
          (fun node => node.location_code == checkpoint.location_code) with
      | none => .error .notOnRoute
      | some node_index =>
        if (shipment.route.take node_index).any
            (fun node => node.actual_arrival.isNone) then
          .error .outOfOrder
        else if ((shipment.route.getD node_index default).actual_arrival).isSome then
          .error .duplicateCheckpoint
        else .ok (shipment, node_index)

/-- Python `int()` truncation toward zero of a float, applied to
`weight_kg` before anchoring (`Int.tdiv` truncates toward zero). -/
def intTrunc (q : ℚ) : ℤ := Int.tdiv q.num q.den

/-- The `document_tampered` anomaly staged by `register_checkpoint` on a
hash mismatch, carrying the on-chain hash, the recomputed hash and the
location. -/
def tamperAnomaly (shipment_id location_code current_hash : String)
    (on_chain_hash : Option String) (created_at : ℚ) : AnomalyRecord :=
  { shipment_id := shipment_id, anomaly_type := .DOCUMENT_TAMPERED,
    severity := .CRITICAL,
    details := [("expected_hash", .ostr on_chain_hash),
                ("current_hash", .str current_hash),
                ("location", .str location_code),
                ("message", .str ("Document texts have been modified since the last checkpoint. " ++
                  "The SHA-256 hash does not match the on-chain record. " ++
                  "Possible tampering or unauthorized modification detected."))],
    location_code := location_code, resolved := false, created_at := created_at }

/-- Python `firebase_service.add_telemetry`: append one reading to the
shipment's ordered telemetry list. -/
def addTelemetry (t : List (String × List Telemetry)) (sid : String)
    (rec : Telemetry) : List (String × List Telemetry) :=
  match lookupAL t sid with
  | some l => setAL t sid (l ++ [rec])
  | none => t ++ [(sid, [rec])]

/-- Store the shipment's updated on-chain checkpoint list. -/
def setChain (c : List (String × List LedgerEntry)) (sid : String)
    (l : List LedgerEntry) : List (String × List LedgerEntry) :=
  match lookupAL c sid with
  | some _ => setAL c sid l
  | none => c ++ [(sid, l)]

/-- Result payload of `register_checkpoint` (step 13), with the
`hash_verification` sub-dict flattened into `hash_*` fields. -/
structure CheckpointResult where
  status : String
  node_index : ℕ
  location : String
  is_final_destination : Bool
  shipment_status : String
  checkpoint : Telemetry
  blockchain_tx : TxResult
  hash_current : String
  hash_on_chain : Option String
  hash_verified : Bool
  hash_status : String
  tamper_detected : Bool
  anomalies : List AnomalyRecord
  delay_seconds : ℚ
deriving DecidableEq, Repr

/-- Steps 4–13 of `register_checkpoint` (checkpoint.py lines 74–273), run
after validation accepted `(shipment, node_index)`: recompute and verify the
document hash, compute the delay, run the risk engine against the first
telemetry reading's weight, store telemetry, anchor the recomputed hash,
mark the node visited, propagate the delay to downstream nodes when not at
the final node, advance the status, and persist anomalies. -/
def process_checkpoint (sha256 : String → String) (txref : String → String → String)
    (user_id : String) (clock : ℚ) (checkpoint : CheckpointInput) (s : ProcState)
    (shipment : Shipment) (node_index : ℕ) : CheckpointResult × ProcState :=
  let route := shipment.route
  let product_category :=
    match shipment.risk_profile with
    | none => "default"
    | some rp => rp.product_category.getD "default"
  let current_hash :=
    compute_doc_hash sha256 shipment.po_text shipment.invoice_text shipment.bol_text
  let shipment_chain := lookupD s.chain checkpoint.shipment_id []
  let hash_verification := verify_checkpoint_hash shipment_chain current_hash
  let tamper_detected := !hash_verification.verified
  let now := checkpoint.timestamp.getD clock
  let delay_seconds : ℚ :=
    match (route.getD node_index default).expected_arrival with
    | some expected => if now - expected > 0 then now - expected else 0
    | none => 0
  let expected_weight :=
    ((lookupD s.telemetry checkpoint.shipment_id []).head?).map Telemetry.weight_kg
  let anomalies := evaluate_checkpoint clock checkpoint.shipment_id product_category
    checkpoint.location_code checkpoint.temperature checkpoint.humidity
    checkpoint.weight_kg expected_weight (delay_seconds / 3600)
  let telemetry_data : Telemetry :=
    { location_code := checkpoint.location_code,
      temperature := checkpoint.temperature, humidity := checkpoint.humidity,
      weight_kg := checkpoint.weight_kg, timestamp := now, scanned_by := user_id }
  let telemetry1 := addTelemetry s.telemetry checkpoint.shipment_id telemetry_data
  let anchored := append_checkpoint txref shipment_chain checkpoint.shipment_id
    checkpoint.location_code (intTrunc checkpoint.weight_kg) current_hash
  let chain1 := setChain s.chain checkpoint.shipment_id anchored.1
  let tx_result := anchored.2
  let route1 := route.set node_index
    ({ route.getD node_index default with actual_arrival := some now })
  let tx_hashes :=
    match tx_result.tx_hash with
    | some txh => shipment.blockchain_tx_hashes ++ [txh]
    | none => shipment.blockchain_tx_hashes
  let is_final := node_index == route.length - 1
  let new_status := if is_final then "delivered" else "in_transit"
  let updated_route :=
    if delay_seconds > 0 ∧ is_final = false then
      propagate_delay route1 node_index (delay_seconds / 3600)
    else route1
  let shipments1 := setAL s.shipments checkpoint.shipment_id
    ({ shipment with
        route := updated_route,
        current_status := new_status,
        blockchain_tx_hashes := tx_hashes })
  let anomaly_data := tamperAnomaly checkpoint.shipment_id checkpoint.location_code
    current_hash hash_verification.on_chain_hash clock
  let all_anomalies := anomalies ++ (if tamper_detected then [anomaly_data] else [])
  let result : CheckpointResult :=
    { status := if is_final then "delivered"
        else if tamper_detected then "tamper_detected"
        else if anomalies.isEmpty = false then "anomaly_detected"
        else "transferred",
      node_index := node_index, location := checkpoint.location_code,
      is_final_destination := is_final, shipment_status := new_status,
      checkpoint := telemetry_data, blockchain_tx := tx_result,
      hash_current := current_hash,
      hash_on_chain := hash_verification.on_chain_hash,
      hash_verified := hash_verification.verified,
      hash_status := hash_verification.status,
      tamper_detected := tamper_detected,
      anomalies := all_anomalies, delay_seconds := delay_seconds }
  (result,
   { shipments := shipments1, telemetry := telemetry1,
     anomalies := s.anomalies ++ all_anomalies, chain := chain1 })

/-- Embeds `register_checkpoint` (checkpoint.py lines 26–273): the rejected
submission returns its error with the state untouched; an accepted one runs
the processing pipeline. -/
def register_checkpoint (sha256 : String → String) (txref : String → String → String)
    (user_id : String) (clock : ℚ) (checkpoint : CheckpointInput) (s : ProcState) :
    Except HttpError CheckpointResult × ProcState :=
  match validate_checkpoint s checkpoint with
  | .error e => (.error e, s)
  | .ok (shipment, node_index) =>
    let pr := process_checkpoint sha256 txref user_id clock checkpoint s shipment node_index
    (.ok pr.1, pr.2)

/-- C9 (counterexample): the document-text triples named by the claim,
`("a|INV:b", "", bol)` and `("a", "b", bol)`, do not collide — their
delimiter-joined encodings differ (`PO:a|INV:b|INV:|BOL:` against
`PO:a|INV:b|BOL:`), and under an injective hash primitive (here the
identity) so do their digests. -/
theorem C9_claimed_pair_differs :
    docCombined "a|INV:b" "" "" ≠ docCombined "a" "b" "" ∧
    compute_doc_hash (fun s => s) "a|INV:b" "" "" ≠
      compute_doc_hash (fun s => s) "a" "b" "" := by
  exact ⟨by decide, by decide⟩

/-- C9 (amended): the delimiter-joined document encoding is not injective in
the three texts — the distinct triples `("a|INV:b", "c", bol)` and
`("a", "b|INV:c", bol)` produce character-identical encodings, hence the
identical digest under the hash primitive, and are indistinguishable to the
tamper check. -/
theorem C9_doc_hash_not_injective (sha256 : String → String) (bol_text : String) :
    docCombined "a|INV:b" "c" bol_text = docCombined "a" "b|INV:c" bol_text ∧
    compute_doc_hash sha256 "a|INV:b" "c" bol_text =
      compute_doc_hash sha256 "a" "b|INV:c" bol_text ∧
    ("a|INV:b", "c", bol_text) ≠ ("a", "b|INV:c", bol_text) := by
  have he : docCombined "a|INV:b" "c" bol_text = docCombined "a" "b|INV:c" bol_text := by
    show (((("PO:" ++ "a|INV:b") ++ "|INV:") ++ "c") ++ "|BOL:") ++ bol_text =
      (((("PO:" ++ "a") ++ "|INV:") ++ "b|INV:c") ++ "|BOL:") ++ bol_text
    exact congrArg (· ++ bol_text) (by decide)
  refine ⟨he, congrArg sha256 he, fun h => ?_⟩
  have : "a|INV:b" = "a" := congrArg (fun t => t.1) h
  exact absurd this (by decide)

/-- C3: hash verification against an empty on-chain list is auto-verified as
`first_checkpoint` whatever the supplied hash; with at least one anchored
entry it compares against the most recent entry only, verifying exactly when
the two hashes are equal. -/
theorem C3_verify_latest_anchor (chain : List LedgerEntry) (h : String) :
    (chain = [] →
      (verify_checkpoint_hash chain h).verified = true ∧
      (verify_checkpoint_hash chain h).status = "first_checkpoint") ∧
    (∀ (es : List LedgerEntry) (e : LedgerEntry), chain = es ++ [e] →
      ((verify_checkpoint_hash chain h).verified = true ↔ e.document_hash = h) ∧
      (verify_checkpoint_hash chain h).on_chain_hash = some e.document_hash ∧
      (verify_checkpoint_hash chain h).status =
        (if e.document_hash = h then "verified" else "hash_mismatch")) := by
  constructor
  · rintro rfl
    exact ⟨rfl, rfl⟩
  · rintro es e rfl
    have hl : (es ++ [e]).getLast? = some e := by simp
    unfold verify_checkpoint_hash
    rw [hl]
    refine ⟨by simp, rfl, ?_⟩
    by_cases he : e.document_hash = h
    · simp [he]
    · simp [he]

/-- Closed instance of C3 on an empty and a one-entry chain. -/
theorem C3_verify_latest_anchor_witness :
    (verify_checkpoint_hash [] "aa").verified = true ∧
    (verify_checkpoint_hash [] "aa").status = "first_checkpoint" ∧
    ((verify_checkpoint_hash [⟨"DEL", 0, "bb"⟩] "aa").verified = true ↔
      ("bb" : String) = "aa") :=
  ⟨((C3_verify_latest_anchor [] "aa").1 rfl).1,
   ((C3_verify_latest_anchor [] "aa").1 rfl).2,
   (((C3_verify_latest_anchor [⟨"DEL", 0, "bb"⟩] "aa").2 [] ⟨"DEL", 0, "bb"⟩
      (by simp)).1)⟩

theorem register_of_validate_error (sha256 : String → String)
    (txref : String → String → String) (user_id : String) (clock : ℚ)
    (cp : CheckpointInput) (s : ProcState) (e : HttpError)
    (h : validate_checkpoint s cp = .error e) :
    register_checkpoint sha256 txref user_id clock cp s = (.error e, s) := by
  unfold register_checkpoint
  rw [h]

/-- C1: each structural rejection — unknown shipment, delivered shipment,
location not on the route, an earlier node unvisited, the target node
already visited — raises its error (NotFound, InvalidState, NotOnRoute,
OutOfOrder, DuplicateCheckpoint) and returns the state exactly as it was:
no shipment, telemetry, anomaly or ledger mutation. -/
theorem C1_structural_rejections_pure (sha256 : String → String)
    (txref : String → String → String) (user_id : String) (clock : ℚ)
    (cp : CheckpointInput) (s : ProcState) :
    (lookupAL s.shipments cp.shipment_id = none →
      register_checkpoint sha256 txref user_id clock cp s = (.error .notFound, s)) ∧
    (∀ sh, lookupAL s.shipments cp.shipment_id = some sh →
      sh.current_status = "delivered" →
      register_checkpoint sha256 txref user_id clock cp s = (.error .invalidState, s)) ∧
    (∀ sh, lookupAL s.shipments cp.shipment_id = some sh →
      sh.current_status ≠ "delivered" →
      sh.route.findIdx? (fun node => node.location_code == cp.location_code) = none →
      register_checkpoint sha256 txref user_id clock cp s = (.error .notOnRoute, s)) ∧
    (∀ sh idx, lookupAL s.shipments cp.shipment_id = some sh →
      sh.current_status ≠ "delivered" →
      sh.route.findIdx? (fun node => node.location_code == cp.location_code) = some idx →
      (sh.route.take idx).any (fun node => node.actual_arrival.isNone) = true →
      register_checkpoint sha256 txref user_id clock cp s = (.error .outOfOrder, s)) ∧
    (∀ sh idx, lookupAL s.shipments cp.shipment_id = some sh →
      sh.current_status ≠ "delivered" →
      sh.route.findIdx? (fun node => node.location_code == cp.location_code) = some idx →
      (sh.route.take idx).any (fun node => node.actual_arrival.isNone) = false →
      ((sh.route.getD idx default).actual_arrival).isSome = true →
      register_checkpoint sha256 txref user_id clock cp s =
        (.error .duplicateCheckpoint, s)) := by
  refine ⟨?_, ?_, ?_, ?_, ?_⟩
  · intro hl
    refine register_of_validate_error _ _ _ _ _ _ _ ?_
    unfold validate_checkpoint
    rw [hl]
  · intro sh hl hst
    refine register_of_validate_error _ _ _ _ _ _ _ ?_
    unfold validate_checkpoint
    rw [hl]
    simp [hst]
  · intro sh hl hst hf
    refine register_of_validate_error _ _ _ _ _ _ _ ?_
    unfold validate_checkpoint
    rw [hl]
    simp only [if_neg hst]
    rw [hf]
  · intro sh idx hl hst hf hany
    refine register_of_validate_error _ _ _ _ _ _ _ ?_
    unfold validate_checkpoint
    rw [hl]
    simp only [if_neg hst]
    rw [hf]
    simp [hany]
  · intro sh idx hl hst hf hany hvis
    refine register_of_validate_error _ _ _ _ _ _ _ ?_
    unfold validate_checkpoint
    rw [hl]
    simp only [if_neg hst]
    rw [hf]
    dsimp only
    rw [if_neg (by rw [hany]; simp), if_pos hvis]

/-- Closed instance of C1 at a concrete one-shipment state. -/
theorem C1_structural_rejections_pure_witness :
    lookupAL (ProcState.mk [] [] [] []).shipments "S1" = none ∧
    register_checkpoint (fun s => s) (fun _ _ => "tx") "u" 0
        ⟨"S1", "DEL", none, none, 100, none⟩ (ProcState.mk [] [] [] []) =
      (.error .notFound, ProcState.mk [] [] [] []) :=
  ⟨rfl,
    (C1_structural_rejections_pure (fun s => s) (fun _ _ => "tx") "u" 0
      ⟨"S1", "DEL", none, none, 100, none⟩ (ProcState.mk [] [] [] [])).1 rfl⟩

theorem validate_ok_inv (s : ProcState) (cp : CheckpointInput) (sh : Shipment) (idx : ℕ)
    (h : validate_checkpoint s cp = .ok (sh, idx)) :
    lookupAL s.shipments cp.shipment_id = some sh ∧
    sh.current_status ≠ "delivered" ∧
    sh.route.findIdx? (fun node => node.location_code == cp.location_code) = some idx := by
  unfold validate_checkpoint at h
  cases hl : lookupAL s.shipments cp.shipment_id with
  | none => rw [hl] at h; exact Except.noConfusion h
  | some sh0 =>
    rw [hl] at h
    dsimp only at h
    by_cases hst : sh0.current_status = "delivered"
    · rw [if_pos hst] at h; exact Except.noConfusion h
    · rw [if_neg hst] at h
      cases hf : sh0.route.findIdx? (fun node => node.location_code == cp.location_code) with
      | none => rw [hf] at h; exact Except.noConfusion h
      | some i =>
        rw [hf] at h
        dsimp only at h
        by_cases hany : ((sh0.route.take i).any fun node => node.actual_arrival.isNone) = true
        · rw [if_pos hany] at h; exact Except.noConfusion h
        · rw [if_neg hany] at h
          by_cases hvis : ((sh0.route.getD i default).actual_arrival).isSome = true
          · rw [if_pos hvis] at h; exact Except.noConfusion h
          · rw [if_neg hvis] at h
            injection h with h2
            injection h2 with ha hb
            subst ha; subst hb
            exact ⟨rfl, hst, hf⟩

/-- Rank of a status along the created → in_transit → delivered order. -/
def statusRank (st : String) : ℕ :=
  if st = "delivered" then 2 else if st = "in_transit" then 1 else 0

theorem statusRank_le_one (st : String) (h : st ≠ "delivered") : statusRank st ≤ 1 := by
  unfold statusRank
  rw [if_neg h]
  split <;> omega

theorem lookupAL_append_of_none {α : Type} (c d : List (String × α)) (k : String)
    (h : lookupAL c k = none) : lookupAL (c ++ d) k = lookupAL d k := by
  induction c with
  | nil => rfl
  | cons p rest ih =>
    by_cases hp : p.1 = k
    · simp [lookupAL, hp] at h
    · simp only [lookupAL, if_neg hp] at h
      simp only [List.cons_append, lookupAL, if_neg hp]
      exact ih h

theorem lookupAL_setChain_self (c : List (String × List LedgerEntry)) (sid : String)
    (l : List LedgerEntry) : lookupAL (setChain c sid l) sid = some l := by
  unfold setChain
  cases h : lookupAL c sid with
  | some x => exact lookupAL_setAL_self c sid l (by rw [h]; rfl)
  | none =>
    rw [lookupAL_append_of_none c [(sid, l)] sid h]
    simp [lookupAL]

/-- The shipment stored back by the processing pipeline: found under its id,
its status is `delivered` at the final node and `in_transit` otherwise, the
target node carries its `actual_arrival`, and the anchored chain grew by the
recomputed hash. -/
theorem propagate_getD_le (r : List RouteNode) (i : ℕ) (d : ℚ) (j : ℕ)
    (hj : j ≤ i) (hlen : j < r.length) :
    (propagate_delay r i d).getD j default = r.getD j default := by
  have hlen2 : j < (propagate_delay r i d).length := by
    unfold propagate_delay
    rw [propagate_aux_length]
    exact hlen
  rw [List.getD_eq_getElem _ _ hlen2, List.getD_eq_getElem _ _ hlen]
  have hg := propagate_aux_get d i r 0 j hlen2 hlen
  rw [if_neg (by omega)] at hg
  exact hg

theorem set_getD_self (r : List RouteNode) (i : ℕ) (v : RouteNode)
    (h : i < r.length) : (r.set i v).getD i default = v := by
  have h2 : i < (r.set i v).length := by rw [List.length_set]; exact h
  rw [List.getD_eq_getElem _ _ h2]
  exact List.getElem_set_self h2

/-- The shipment stored back by the processing pipeline: found under its id,
its status is `delivered` at the final node and `in_transit` otherwise, the
target node carries its `actual_arrival`, and the anchored chain grew by the
recomputed hash. -/
theorem process_committed (sha256 : String → String) (txref : String → String → String)
    (user_id : String) (clock : ℚ) (cp : CheckpointInput) (s : ProcState)
    (sh : Shipment) (idx : ℕ) (hidx : idx < sh.route.length)
    (hiso : (lookupAL s.shipments cp.shipment_id).isSome) :
    ∃ sh1, lookupAL (process_checkpoint sha256 txref user_id clock cp s sh idx).2.shipments
        cp.shipment_id = some sh1 ∧
      sh1.current_status =
        (if (idx == sh.route.length - 1) = true then "delivered" else "in_transit") ∧
      (sh1.route.getD idx default).actual_arrival = some (cp.timestamp.getD clock) ∧
      lookupAL (process_checkpoint sha256 txref user_id clock cp s sh idx).2.chain
          cp.shipment_id =
        some ((lookupD s.chain cp.shipment_id []) ++
          [⟨cp.location_code, intTrunc cp.weight_kg,
            compute_doc_hash sha256 sh.po_text sh.invoice_text sh.bol_text⟩]) := by
  unfold process_checkpoint
  dsimp only
  refine ⟨_, lookupAL_setAL_self s.shipments cp.shipment_id _ hiso, rfl, ?_,
    lookupAL_setChain_self s.chain cp.shipment_id _⟩
  split
  · rw [propagate_getD_le _ idx _ idx (le_refl idx) (by rw [List.length_set]; exact hidx)]
    rw [set_getD_self _ idx _ hidx]
  · rw [set_getD_self _ idx _ hidx]

/-- C2: an accepted checkpoint only ever moves `current_status` forward — it
requires the shipment not to be delivered and leaves it `in_transit` or
`delivered`; once a shipment is delivered, every further checkpoint
submission for it is rejected with InvalidState and no checkpoint operation
(for it or for any other shipment) changes its stored document again. -/
theorem C2_status_forward_delivered_terminal (sha256 : String → String)
    (txref : String → String → String) (user_id : String) (clock : ℚ) (s : ProcState) :
    (∀ cp res s1,
      register_checkpoint sha256 txref user_id clock cp s = (.ok res, s1) →
      ∃ sh sh1, lookupAL s.shipments cp.shipment_id = some sh ∧
        lookupAL s1.shipments cp.shipment_id = some sh1 ∧
        sh.current_status ≠ "delivered" ∧
        (sh1.current_status = "in_transit" ∨ sh1.current_status = "delivered") ∧
        statusRank sh.current_status ≤ statusRank sh1.current_status) ∧
    (∀ sid sh, lookupAL s.shipments sid = some sh → sh.current_status = "delivered" →
      ∀ cp,
        (cp.shipment_id = sid →
          register_checkpoint sha256 txref user_id clock cp s = (.error .invalidState, s)) ∧
        lookupAL (register_checkpoint sha256 txref user_id clock cp s).2.shipments sid
          = some sh) := by
  constructor
  · intro cp res s1 hreg
    cases hv : validate_checkpoint s cp with
    | error e =>
      rw [register_of_validate_error sha256 txref user_id clock cp s e hv] at hreg
      exact absurd (congrArg Prod.fst hreg) (by simp)
    | ok pair =>
      obtain ⟨sh, idx⟩ := pair
      obtain ⟨hli, hst, hf⟩ := validate_ok_inv s cp sh idx hv
      have hidx : idx < sh.route.length := by
        obtain ⟨h1, -⟩ := List.findIdx?_eq_some_iff_getElem.mp hf
        exact h1
      have hreg2 : register_checkpoint sha256 txref user_id clock cp s =
          (.ok (process_checkpoint sha256 txref user_id clock cp s sh idx).1,
            (process_checkpoint sha256 txref user_id clock cp s sh idx).2) := by
        unfold register_checkpoint
        rw [hv]
      rw [hreg2] at hreg
      have hs1 : s1 = (process_checkpoint sha256 txref user_id clock cp s sh idx).2 :=
        (congrArg Prod.snd hreg).symm
      subst hs1
      obtain ⟨sh1, hlook, hstat, -, -⟩ :=
        process_committed sha256 txref user_id clock cp s sh idx hidx (by rw [hli]; rfl)
      refine ⟨sh, sh1, hli, hlook, hst, ?_, ?_⟩
      · rw [hstat]
        split
        · exact Or.inr rfl
        · exact Or.inl rfl
      · have h1 : statusRank sh.current_status ≤ 1 := statusRank_le_one _ hst
        have h2 : 1 ≤ statusRank sh1.current_status := by
          rw [hstat]
          unfold statusRank
          split <;> simp
        omega
  · intro sid sh hl hst cp
    constructor
    · intro hid
      refine register_of_validate_error _ _ _ _ _ _ _ ?_
      unfold validate_checkpoint
      rw [hid, hl]
      simp [hst]
    · unfold register_checkpoint
      cases hv : validate_checkpoint s cp with
      | error e => exact hl
      | ok pair =>
        obtain ⟨sh0, idx⟩ := pair
        dsimp only
        by_cases hid : cp.shipment_id = sid
        · obtain ⟨hli, hstn, -⟩ := validate_ok_inv s cp sh0 idx hv
          rw [hid, hl] at hli
          injection hli with he
          exact absurd (he ▸ hst) hstn
        · exact (lookupAL_setAL_ne s.shipments sid cp.shipment_id _
            fun e => hid e.symm).trans hl

/-- Closed instance of C2 on a delivered one-shipment state. -/
theorem C2_status_forward_delivered_terminal_witness :
    lookupAL [("S1", Shipment.mk "S1" "DEL" "JAI"
        [⟨"DEL", "Delhi Hub", none, none, some 5⟩] none "delivered" [] "" "" "" "")]
      "S1" = some (Shipment.mk "S1" "DEL" "JAI"
        [⟨"DEL", "Delhi Hub", none, none, some 5⟩] none "delivered" [] "" "" "" "") ∧
    register_checkpoint (fun s => s) (fun _ _ => "tx") "u" 0
        ⟨"S1", "DEL", none, none, 100, none⟩
        (ProcState.mk [("S1", Shipment.mk "S1" "DEL" "JAI"
          [⟨"DEL", "Delhi Hub", none, none, some 5⟩] none "delivered" [] "" "" "" "")]
          [] [] []) =
      (.error .invalidState,
        ProcState.mk [("S1", Shipment.mk "S1" "DEL" "JAI"
          [⟨"DEL", "Delhi Hub", none, none, some 5⟩] none "delivered" [] "" "" "" "")]
          [] [] []) :=
  ⟨by decide,
    ((C2_status_forward_delivered_terminal (fun s => s) (fun _ _ => "tx") "u" 0
      (ProcState.mk [("S1", Shipment.mk "S1" "DEL" "JAI"
        [⟨"DEL", "Delhi Hub", none, none, some 5⟩] none "delivered" [] "" "" "" "")]
        [] [] [])).2 "S1" (Shipment.mk "S1" "DEL" "JAI"
        [⟨"DEL", "Delhi Hub", none, none, some 5⟩] none "delivered" [] "" "" "" "")
      (by decide) rfl ⟨"S1", "DEL", none, none, 100, none⟩).1 rfl⟩

/-- C4: a checkpoint whose hash verification fails is still completed — the
submission returns a success result flagged `tamper_detected`, a
DOCUMENT_TAMPERED anomaly of severity CRITICAL carrying both hash values and
the location code is persisted, the node is marked visited, the recomputed
hash is anchored on the shipment's chain, and the status still advances to
`in_transit` or `delivered`. -/
theorem C4_tamper_detected_nonfatal (sha256 : String → String)
    (txref : String → String → String) (user_id : String) (clock : ℚ)
    (cp : CheckpointInput) (s : ProcState) (sh : Shipment) (idx : ℕ)
    (hv : validate_checkpoint s cp = .ok (sh, idx))
    (hm : (verify_checkpoint_hash (lookupD s.chain cp.shipment_id [])
        (compute_doc_hash sha256 sh.po_text sh.invoice_text sh.bol_text)).verified
      = false) :
    ∃ res s1, register_checkpoint sha256 txref user_id clock cp s = (.ok res, s1) ∧
      res.tamper_detected = true ∧
      (∃ a ∈ s1.anomalies, a.anomaly_type = .DOCUMENT_TAMPERED ∧
        a.severity = .CRITICAL ∧ a.location_code = cp.location_code ∧
        ("current_hash", .str (compute_doc_hash sha256 sh.po_text sh.invoice_text
          sh.bol_text)) ∈ a.details ∧
        ("expected_hash", .ostr (verify_checkpoint_hash (lookupD s.chain cp.shipment_id [])
          (compute_doc_hash sha256 sh.po_text sh.invoice_text sh.bol_text)).on_chain_hash)
          ∈ a.details ∧
        ("location", .str cp.location_code) ∈ a.details) ∧
      (∃ sh1, lookupAL s1.shipments cp.shipment_id = some sh1 ∧
        (sh1.route.getD idx default).actual_arrival = some (cp.timestamp.getD clock) ∧
        (sh1.current_status = "in_transit" ∨ sh1.current_status = "delivered")) ∧
      lookupAL s1.chain cp.shipment_id =
        some ((lookupD s.chain cp.shipment_id []) ++
          [⟨cp.location_code, intTrunc cp.weight_kg,
            compute_doc_hash sha256 sh.po_text sh.invoice_text sh.bol_text⟩]) := by
  obtain ⟨hli, hst, hf⟩ := validate_ok_inv s cp sh idx hv
  have hidx : idx < sh.route.length := by
    obtain ⟨h1, -⟩ := List.findIdx?_eq_some_iff_getElem.mp hf
    exact h1
  obtain ⟨sh1, hlook, hstat, harr, hchain⟩ :=
    process_committed sha256 txref user_id clock cp s sh idx hidx (by rw [hli]; rfl)
  refine ⟨(process_checkpoint sha256 txref user_id clock cp s sh idx).1,
    (process_checkpoint sha256 txref user_id clock cp s sh idx).2, ?_, ?_, ?_, ?_, hchain⟩
  · unfold register_checkpoint
    rw [hv]
  · show (! (verify_checkpoint_hash _ _).verified) = true
    rw [hm]
    rfl
  · refine ⟨tamperAnomaly cp.shipment_id cp.location_code
      (compute_doc_hash sha256 sh.po_text sh.invoice_text sh.bol_text)
      (verify_checkpoint_hash (lookupD s.chain cp.shipment_id [])
        (compute_doc_hash sha256 sh.po_text sh.invoice_text sh.bol_text)).on_chain_hash
      clock, ?_, rfl, rfl, rfl, by simp [tamperAnomaly], by simp [tamperAnomaly],
      by simp [tamperAnomaly]⟩
    show _ ∈ s.anomalies ++ (_ ++ (if (! (verify_checkpoint_hash _ _).verified) = true
      then [tamperAnomaly _ _ _ _ _] else []))
    rw [hm]
    refine List.mem_append_right _ (List.mem_append_right _ ?_)
    simp
  · exact ⟨sh1, hlook, harr, by
      rw [hstat]
      split
      · exact Or.inr rfl
      · exact Or.inl rfl⟩

/-- Closed instance of C4 at a concrete tampered state. -/
theorem C4_tamper_detected_nonfatal_witness :
    validate_checkpoint
        (ProcState.mk [("S1", Shipment.mk "S1" "DEL" "JAI"
          [⟨"DEL", "Delhi Hub", none, none, none⟩,
           ⟨"JAI", "Jaipur Hub", none, none, none⟩] none "created" [] "" "" "" "")]
          [] [] [("S1", [⟨"DEL", 0, "H0"⟩])])
        ⟨"S1", "DEL", none, none, 100, none⟩ =
      .ok (Shipment.mk "S1" "DEL" "JAI"
        [⟨"DEL", "Delhi Hub", none, none, none⟩,
         ⟨"JAI", "Jaipur Hub", none, none, none⟩] none "created" [] "" "" "" "", 0) ∧
    (verify_checkpoint_hash
        (lookupD (ProcState.mk [("S1", Shipment.mk "S1" "DEL" "JAI"
          [⟨"DEL", "Delhi Hub", none, none, none⟩,
           ⟨"JAI", "Jaipur Hub", none, none, none⟩] none "created" [] "" "" "" "")]
          [] [] [("S1", [⟨"DEL", 0, "H0"⟩])]).chain "S1" [])
        (compute_doc_hash (fun _ => "H1") "" "" "")).verified = false ∧
    (∃ res s1, register_checkpoint (fun _ => "H1") (fun _ _ => "tx") "u" 0
        ⟨"S1", "DEL", none, none, 100, none⟩
        (ProcState.mk [("S1", Shipment.mk "S1" "DEL" "JAI"
          [⟨"DEL", "Delhi Hub", none, none, none⟩,
           ⟨"JAI", "Jaipur Hub", none, none, none⟩] none "created" [] "" "" "" "")]
          [] [] [("S1", [⟨"DEL", 0, "H0"⟩])]) = (.ok res, s1) ∧
      res.tamper_detected = true ∧
      (∃ a ∈ s1.anomalies, a.anomaly_type = .DOCUMENT_TAMPERED ∧
        a.severity = .CRITICAL ∧ a.location_code = "DEL" ∧
        ("current_hash", .str (compute_doc_hash (fun _ => "H1") "" "" "")) ∈ a.details ∧
        ("expected_hash", .ostr (verify_checkpoint_hash
          (lookupD (ProcState.mk [("S1", Shipment.mk "S1" "DEL" "JAI"
            [⟨"DEL", "Delhi Hub", none, none, none⟩,
             ⟨"JAI", "Jaipur Hub", none, none, none⟩] none "created" [] "" "" "" "")]
            [] [] [("S1", [⟨"DEL", 0, "H0"⟩])]).chain "S1" [])
          (compute_doc_hash (fun _ => "H1") "" "" "")).on_chain_hash) ∈ a.details ∧
        ("location", .str "DEL") ∈ a.details) ∧
      (∃ sh1, lookupAL s1.shipments "S1" = some sh1 ∧
        (sh1.route.getD 0 default).actual_arrival = some 0 ∧
        (sh1.current_status = "in_transit" ∨ sh1.current_status = "delivered")) ∧
      lookupAL s1.chain "S1" =
        some ((lookupD (ProcState.mk [("S1", Shipment.mk "S1" "DEL" "JAI"
          [⟨"DEL", "Delhi Hub", none, none, none⟩,
           ⟨"JAI", "Jaipur Hub", none, none, none⟩] none "created" [] "" "" "" "")]
          [] [] [("S1", [⟨"DEL", 0, "H0"⟩])]).chain "S1" []) ++
          [⟨"DEL", intTrunc 100, compute_doc_hash (fun _ => "H1") "" "" ""⟩])) :=
  ⟨by rfl, by rfl,
    C4_tamper_detected_nonfatal (fun _ => "H1") (fun _ _ => "tx") "u" 0
      ⟨"S1", "DEL", none, none, 100, none⟩
      (ProcState.mk [("S1", Shipment.mk "S1" "DEL" "JAI"
        [⟨"DEL", "Delhi Hub", none, none, none⟩,
         ⟨"JAI", "Jaipur Hub", none, none, none⟩] none "created" [] "" "" "" "")]
        [] [] [("S1", [⟨"DEL", 0, "H0"⟩])])
      (Shipment.mk "S1" "DEL" "JAI"
        [⟨"DEL", "Delhi Hub", none, none, none⟩,
         ⟨"JAI", "Jaipur Hub", none, none, none⟩] none "created" [] "" "" "" "") 0
      (by rfl) (by rfl)⟩

/-- Closed instance of C5 discharging its hypotheses at a concrete pair. -/
theorem C5_find_optimal_route_minimal_witness :
    ∃ (r : List RouteNode) (d : ℕ), find_optimal_route 0 "DEL" "KOL" = some r ∧
      (r.map RouteNode.location_code).head? = some "DEL" ∧
      (r.map RouteNode.location_code).getLast? = some "KOL" ∧
      walkCostW (r.map RouteNode.location_code) = (d : WithTop ℕ) ∧
      ∀ p, isWalk "DEL" "KOL" p → (d : WithTop ℕ) ≤ walkCostW p :=
  C5_find_optimal_route_minimal 0 "DEL" "KOL" (by decide) (by decide)
    (by decide) ⟨["DEL", "LKO", "KOL"], by constructor; rfl; constructor; rfl; decide⟩

end SupplyDaddy
